import Mathlib

/-!
Verification of the tambopata dashboard core: the sun-position function
`sunPosAt` (src/components/WorldGlobe.jsx) and the weather cache / derived
query layer (src/services/weatherService.js).

The sun model is embedded over ℚ (longitude, exact rational arithmetic
mirroring the JS formula) and ℝ (latitude, which uses `Math.sin`).  Instants
are seconds since the UTC epoch; luxon's `.hour` and `.minute` fields in the
UTC zone are `sec / 3600 % 24` and `sec / 60 % 60`.
-/

namespace Tambopata

/-- Luxon `.hour` of a UTC instant given as seconds since epoch. -/
def hourOfDay (sec : ℕ) : ℕ := sec / 3600 % 24

/-- Luxon `.minute` of a UTC instant given as seconds since epoch. -/
def minuteOfHour (sec : ℕ) : ℕ := sec / 60 % 60

/-- `const hours = adjustedTime.hour + adjustedTime.minute / 60;`
(WorldGlobe.jsx line 322; the `LONGITUDE_OFFSET_HOURS` offset is 0, so
`adjustedTime = time`). -/
def hoursFrac (sec : ℕ) : ℚ := (hourOfDay sec : ℚ) + (minuteOfHour sec : ℚ) / 60

/-- The two sequential wrap-around conditionals of WorldGlobe.jsx lines
327-328: `if (longitude < -180) longitude += 360; if (longitude > 180)
longitude -= 360;`. -/
def wrapLon (x : ℚ) : ℚ :=
  let x1 := if x < -180 then x + 360 else x
  if x1 > 180 then x1 - 360 else x1

/-- `let longitude = ((-hours) / 24) * 360 - 180;` followed by the wrap
(WorldGlobe.jsx lines 325-328). -/
def sunLongitudeAt (sec : ℕ) : ℚ :=
  wrapLon ((-(hoursFrac sec)) / 24 * 360 - 180)

/-- `THREE.MathUtils.degToRad`: degrees to radians. -/
noncomputable def degToRad (d : ℝ) : ℝ := d * (Real.pi / 180)

/-- `const latitude = 23.45 * Math.sin(THREE.MathUtils.degToRad(360 / 365 *
(dayOfYear - 81)));` (WorldGlobe.jsx line 337), with `dayOfYear` luxon's
`.ordinal` (1-366). -/
noncomputable def sunLatitudeAt (dayOfYear : ℕ) : ℝ :=
  23.45 * Real.sin (degToRad (360 / 365 * ((dayOfYear : ℝ) - 81)))

/-- `sunPosAt` (WorldGlobe.jsx lines 316-342): the sub-solar longitude and
latitude for a UTC instant; the instant is given by its seconds-since-epoch
(fixing hour and minute) and its ordinal day of the year. -/
noncomputable def sunPosAt (sec dayOfYear : ℕ) : ℚ × ℝ :=
  (sunLongitudeAt sec, sunLatitudeAt dayOfYear)

lemma hourOfDay_mod_86400 (sec : ℕ) : hourOfDay sec = sec % 86400 / 3600 := by
  unfold hourOfDay; omega

lemma minuteOfHour_mod_86400 (sec : ℕ) :
    minuteOfHour sec = sec % 86400 / 60 % 60 := by
  unfold minuteOfHour; omega

lemma hourOfDay_lt (sec : ℕ) : hourOfDay sec < 24 :=
  Nat.mod_lt _ (by norm_num)

lemma minuteOfHour_lt (sec : ℕ) : minuteOfHour sec < 60 :=
  Nat.mod_lt _ (by norm_num)

lemma hoursFrac_nonneg (sec : ℕ) : 0 ≤ hoursFrac sec := by
  unfold hoursFrac
  positivity

lemma hoursFrac_lt (sec : ℕ) : hoursFrac sec < 24 := by
  unfold hoursFrac
  have h1 : (hourOfDay sec : ℚ) ≤ 23 := by
    exact_mod_cast Nat.lt_succ_iff.mp (hourOfDay_lt sec)
  have h2 : (minuteOfHour sec : ℚ) ≤ 59 := by
    exact_mod_cast Nat.lt_succ_iff.mp (minuteOfHour_lt sec)
  linarith

lemma wrapLon_bounds (x : ℚ) (hlo : -540 < x) (hhi : x ≤ -180) :
    -180 ≤ wrapLon x ∧ wrapLon x ≤ 180 := by
  simp only [wrapLon]
  split <;> split <;> constructor <;> linarith

lemma sunLongitudeAt_bounds (sec : ℕ) :
    -180 ≤ sunLongitudeAt sec ∧ sunLongitudeAt sec ≤ 180 := by
  unfold sunLongitudeAt
  apply wrapLon_bounds
  · have := hoursFrac_lt sec
    nlinarith [hoursFrac_nonneg sec]
  · have := hoursFrac_nonneg sec
    nlinarith

/-- C4: for every instant, `sunPosAt` returns a latitude in
[-23.45°, 23.45°] and a longitude in [-180°, 180°]. -/
theorem sunPosAt_in_bounds (sec dayOfYear : ℕ) :
    (-180 ≤ (sunPosAt sec dayOfYear).1 ∧ (sunPosAt sec dayOfYear).1 ≤ 180) ∧
    (-23.45 ≤ (sunPosAt sec dayOfYear).2 ∧ (sunPosAt sec dayOfYear).2 ≤ 23.45) := by
  refine ⟨sunLongitudeAt_bounds sec, ?_, ?_⟩
  · have h := Real.neg_one_le_sin (degToRad (360 / 365 * ((dayOfYear : ℝ) - 81)))
    unfold sunPosAt sunLatitudeAt
    nlinarith
  · have h := Real.sin_le_one (degToRad (360 / 365 * ((dayOfYear : ℝ) - 81)))
    unfold sunPosAt sunLatitudeAt
    nlinarith

/-- C9: the longitude component of `sunPosAt` is periodic with period 24
hours (86400 seconds) — in fact exactly equal, so equality modulo ±180°
wraparound follows a fortiori. -/
theorem sunLongitudeAt_periodic (sec : ℕ) :
    sunLongitudeAt (sec + 86400) = sunLongitudeAt sec := by
  have h1 : hourOfDay (sec + 86400) = hourOfDay sec := by unfold hourOfDay; omega
  have h2 : minuteOfHour (sec + 86400) = minuteOfHour sec := by
    unfold minuteOfHour; omega
  unfold sunLongitudeAt hoursFrac
  rw [h1, h2]

/-- C1 (counterexample): at UTC noon exactly (43200 seconds into the day)
the longitude is 0°, not at the ±180° boundary as claimed; at UTC midnight
it is -180°, not approximately 0°. -/
theorem sunLongitude_noon_not_at_boundary :
    sunLongitudeAt 43200 = 0 ∧ sunLongitudeAt 43200 ≠ 180 ∧
    sunLongitudeAt 43200 ≠ -180 ∧ sunLongitudeAt 0 = -180 ∧
    sunLongitudeAt 0 ≠ 0 := by
  norm_num [sunLongitudeAt, hoursFrac, hourOfDay, minuteOfHour, wrapLon]

/-- C1 (amended): for every instant at exactly 12:00 UTC `sunPosAt` returns
longitude 0°, and for every instant at exactly 00:00 UTC it returns
longitude -180° (the -180°/180° boundary). -/
theorem sunLongitude_noon_zero_midnight_boundary (s1 s2 : ℕ)
    (h1 : s1 % 86400 = 43200) (h2 : s2 % 86400 = 0) :
    sunLongitudeAt s1 = 0 ∧ sunLongitudeAt s2 = -180 := by
  have e1 : hourOfDay s1 = 12 := by unfold hourOfDay; omega
  have e2 : minuteOfHour s1 = 0 := by unfold minuteOfHour; omega
  have e3 : hourOfDay s2 = 0 := by unfold hourOfDay; omega
  have e4 : minuteOfHour s2 = 0 := by unfold minuteOfHour; omega
  unfold sunLongitudeAt hoursFrac
  rw [e1, e2, e3, e4]
  norm_num [wrapLon]

/-- Witness for C1's amended theorem at the concrete instants 43200 s
(12:00:00 UTC) and 0 s (00:00:00 UTC). -/
theorem sunLongitude_noon_zero_midnight_boundary_witness :
    sunLongitudeAt 43200 = 0 ∧ sunLongitudeAt 0 = -180 :=
  sunLongitude_noon_zero_midnight_boundary 43200 0 (by norm_num) (by norm_num)

/-! ## Weather service (src/services/weatherService.js)

The cache and `getSharedWeatherData` are embedded as a state machine over the
single-threaded event loop: a call runs synchronously to its first suspension
point, and a pending fetch round settles (success or failure) as one atomic
event.  `inFlight` lists the network fetch rounds that have been issued but
not settled, and `fetchCount` counts every round ever issued; both are ghost
instrumentation used only to state the single-flight properties. -/

structure Location where
  name : String
  latitude : ℚ
  longitude : ℚ
deriving DecidableEq

/-- Modelled from the spec: `config.js` (imported as `LOCATIONS` by
weatherService.js) is not among the sources.  Spec §6: "Configured locations:
a fixed list of two named points, each `{name, latitude, longitude}`" — the
README names Dresden, Germany and Tambopata, Peru. -/
def LOCATIONS : List Location :=
  [⟨"Dresden", 51.05, 13.74⟩, ⟨"Tambopata", -12.88, -69.29⟩]

/-- `daily` block of the open-meteo payload; sunrise/sunset are local-time
instants in minutes. -/
structure DailyData where
  sunrise : List ℤ
  sunset : List ℤ
  precipitation_probability_max : List ℚ
deriving DecidableEq

/-- `hourly` block of the open-meteo payload; `time` entries are local-time
instants in minutes. -/
structure HourlyData where
  time : List ℤ
  temperature_2m : List ℚ
  apparent_temperature : List ℚ
  weathercode : List ℕ
  precipitation : List ℚ
deriving DecidableEq

structure Weather where
  timezone : String
  daily : DailyData
  hourly : HourlyData
deriving DecidableEq

/-- One element of the combined result list: `{...location, weather: data}`.
`weather` is `none` when the payload for the location is missing (the
`!locationData.weather` guard in the queries).  `round` is ghost: it records
which fetch round produced the record, to state that a cached result never
mixes rounds. -/
structure LocRecord where
  name : String
  weather : Option Weather
  round : ℕ
deriving DecidableEq

/-- The module-level `cache` object: `{ data, timestamp, fetchPromise }`.
A pending promise is identified by the number of its fetch round. -/
structure Cache where
  data : Option (List LocRecord)
  timestamp : ℕ
  fetchPromise : Option ℕ
deriving DecidableEq

/-- `CACHE_DURATION: 15 * 60 * 1000` (milliseconds). -/
def cacheDuration : ℕ := 15 * 60 * 1000

structure SysState where
  cache : Cache
  inFlight : List ℕ
  nextId : ℕ
  fetchCount : ℕ
deriving DecidableEq

/-- The cache at module load: `{ data: null, timestamp: 0, fetchPromise:
null }`, no fetch ever issued. -/
def initState : SysState := ⟨⟨none, 0, none⟩, [], 0, 0⟩

/-- `cache.data && (now - cache.timestamp < cache.CACHE_DURATION)`
(weatherService.js line 22); the subtraction is JS number subtraction,
modelled over ℤ. -/
def cacheValid (c : Cache) (now : ℕ) : Bool :=
  c.data.isSome && ((now : ℤ) - (c.timestamp : ℤ) < (cacheDuration : ℤ))

/-- What a call observes: an immediately returned cached value, or a pending
promise it must await. -/
inductive CallResult where
  | cached (d : List LocRecord)
  | awaitPromise (pid : ℕ)
deriving DecidableEq

/-- The synchronous prefix of `getSharedWeatherData()` (weatherService.js
lines 18-66): return cached data if fresh; else join an already pending
fetch; else issue a new fetch round, store its promise, and return it. -/
def getSharedWeatherData (now : ℕ) (s : SysState) : CallResult × SysState :=
  if cacheValid s.cache now then
    (.cached (s.cache.data.getD []), s)
  else
    match s.cache.fetchPromise with
    | some pid => (.awaitPromise pid, s)
    | none =>
        (.awaitPromise s.nextId,
         { cache := { s.cache with fetchPromise := some s.nextId },
           inFlight := s.nextId :: s.inFlight,
           nextId := s.nextId + 1,
           fetchCount := s.fetchCount + 1 })

/-- `await Promise.all(LOCATIONS.map(location => fetch(...).then(data =>
({...location, weather: data}))))`: the result list of one fetch round `pid`
whose per-location responses are `resp`. -/
def fetchResults (pid : ℕ) (resp : Location → Weather) : List LocRecord :=
  LOCATIONS.map (fun loc => ⟨loc.name, some (resp loc), pid⟩)

/-- Successful settlement of round `pid` at time `now`: `cache.data =
results; cache.timestamp = Date.now();` then `finally { cache.fetchPromise =
null; }` — one atomic microtask. -/
def settleSuccess (pid : ℕ) (resp : Location → Weather) (now : ℕ)
    (s : SysState) : SysState :=
  { cache := { data := some (fetchResults pid resp), timestamp := now,
               fetchPromise := none },
    inFlight := s.inFlight.erase pid,
    nextId := s.nextId, fetchCount := s.fetchCount }

/-- Failed settlement of round `pid`: the `catch` re-throws, so `data` and
`timestamp` are untouched; the `finally` clears `fetchPromise`. -/
def settleFailure (pid : ℕ) (s : SysState) : SysState :=
  { cache := { s.cache with fetchPromise := none },
    inFlight := s.inFlight.erase pid,
    nextId := s.nextId, fetchCount := s.fetchCount }

/-- Outcome of one network fetch round. -/
inductive FetchOutcome where
  | ok (resp : Location → Weather)
  | fail (e : String)

/-- What a caller that was handed the promise of round `pid` observes when
the round settles with `outcome`: the single shared settlement value, and the
cache state after the settlement microtask ran. -/
def awaitShared (outcome : FetchOutcome) (settleTime : ℕ) (pid : ℕ)
    (s : SysState) : Except String (List LocRecord) × SysState :=
  match outcome with
  | .ok resp => (.ok (fetchResults pid resp), settleSuccess pid resp settleTime s)
  | .fail e => (.error e, settleFailure pid s)

/-- Events of the event loop: a call to `getSharedWeatherData`, or the
settlement of an in-flight round. -/
inductive Step : SysState → SysState → Prop where
  | call (now : ℕ) (s : SysState) : Step s (getSharedWeatherData now s).2
  | fetchOk (pid : ℕ) (resp : Location → Weather) (now : ℕ) (s : SysState)
      (hin : pid ∈ s.inFlight) : Step s (settleSuccess pid resp now s)
  | fetchFail (pid : ℕ) (s : SysState) (hin : pid ∈ s.inFlight) :
      Step s (settleFailure pid s)

/-- States reachable from module load. -/
inductive Reachable : SysState → Prop where
  | init : Reachable initState
  | step {s s' : SysState} : Reachable s → Step s s' → Reachable s'

/-- Machine invariant: `fetchPromise` tracks exactly the in-flight rounds
(none, or the one it points to), and `cache.data` is `null` or the complete
result list of a single fetch round. -/
def Inv (s : SysState) : Prop :=
  (s.cache.fetchPromise = none → s.inFlight = []) ∧
  (∀ pid, s.cache.fetchPromise = some pid → s.inFlight = [pid]) ∧
  (s.cache.data = none ∨ ∃ pid resp, s.cache.data = some (fetchResults pid resp))

lemma getShared_cached {now : ℕ} {s : SysState} {d : List LocRecord}
    (hd : s.cache.data = some d) (hv : cacheValid s.cache now = true) :
    getSharedWeatherData now s = (.cached d, s) := by
  simp [getSharedWeatherData, hv, hd]

lemma getShared_join {now : ℕ} {s : SysState} {pid : ℕ}
    (hv : cacheValid s.cache now = false)
    (hp : s.cache.fetchPromise = some pid) :
    getSharedWeatherData now s = (.awaitPromise pid, s) := by
  simp [getSharedWeatherData, hv, hp]

lemma getShared_start {now : ℕ} {s : SysState}
    (hv : cacheValid s.cache now = false)
    (hp : s.cache.fetchPromise = none) :
    getSharedWeatherData now s =
      (.awaitPromise s.nextId,
       { cache := { s.cache with fetchPromise := some s.nextId },
         inFlight := s.nextId :: s.inFlight,
         nextId := s.nextId + 1,
         fetchCount := s.fetchCount + 1 }) := by
  simp [getSharedWeatherData, hv, hp]

lemma inv_init : Inv initState :=
  ⟨fun _ => rfl, fun pid h => by simp [initState] at h, Or.inl rfl⟩

lemma inv_step {s s' : SysState} (h : Inv s) (hs : Step s s') : Inv s' := by
  obtain ⟨h1, h2, h3⟩ := h
  cases hs with
  | call now s =>
      by_cases hv : cacheValid s.cache now = true
      · have hsome : s.cache.data.isSome = true := by
          by_contra hns
          simp only [Bool.not_eq_true] at hns
          simp [cacheValid, hns] at hv
        obtain ⟨d, hd⟩ := Option.isSome_iff_exists.mp hsome
        rw [getShared_cached hd hv]
        exact ⟨h1, h2, h3⟩
      · rw [Bool.not_eq_true] at hv
        cases hp : s.cache.fetchPromise with
        | some pid =>
            rw [getShared_join hv hp]
            exact ⟨h1, h2, h3⟩
        | none =>
            rw [getShared_start hv hp]
            refine ⟨by simp, ?_, h3⟩
            intro pid hpid
            simp only [Option.some.injEq] at hpid
            simp [h1 hp, ← hpid]
  | fetchOk pid resp now s hin =>
      refine ⟨fun _ => ?_, by simp [settleSuccess], Or.inr ⟨pid, resp, rfl⟩⟩
      cases hp : s.cache.fetchPromise with
      | none => simp [settleSuccess, h1 hp]
      | some q =>
          have := h2 q hp
          rw [this] at hin
          simp only [List.mem_singleton] at hin
          simp [settleSuccess, this, hin]
  | fetchFail pid s hin =>
      refine ⟨fun _ => ?_, by simp [settleFailure], by simpa [settleFailure] using h3⟩
      cases hp : s.cache.fetchPromise with
      | none => simp [settleFailure, h1 hp]
      | some q =>
          have := h2 q hp
          rw [this] at hin
          simp only [List.mem_singleton] at hin
          simp [settleFailure, this, hin]

lemma reachable_inv {s : SysState} (h : Reachable s) : Inv s := by
  induction h with
  | init => exact inv_init
  | step _ hs ih => exact inv_step ih hs

lemma cacheValid_mono_false (c : Cache) {now1 now2 : ℕ}
    (h : cacheValid c now1 = false) (hle : now1 ≤ now2) :
    cacheValid c now2 = false := by
  unfold cacheValid at h ⊢
  cases hd : c.data.isSome with
  | false => simp [hd]
  | true =>
      simp only [hd, Bool.true_and, decide_eq_false_iff_not, not_lt] at h ⊢
      have : (now1 : ℤ) ≤ (now2 : ℤ) := by exact_mod_cast hle
      linarith

/-- C2: two concurrent calls to `getSharedWeatherData` (the second arriving
before the first call's fetch settles) while no unstale cache exists issue
exactly one network fetch round, both callers are handed the same shared
pending promise, and at every reachable state at most one fetch is in
flight. -/
theorem single_flight_shared_fetch (s0 : SysState) (now1 now2 : ℕ)
    (hreach : Reachable s0)
    (hv : cacheValid s0.cache now1 = false)
    (hp : s0.cache.fetchPromise = none)
    (hle : now1 ≤ now2) :
    ((getSharedWeatherData now1 s0).1 = CallResult.awaitPromise s0.nextId ∧
     (getSharedWeatherData now2 (getSharedWeatherData now1 s0).2).1 =
       CallResult.awaitPromise s0.nextId ∧
     (getSharedWeatherData now2 (getSharedWeatherData now1 s0).2).2.fetchCount =
       s0.fetchCount + 1 ∧
     (getSharedWeatherData now2 (getSharedWeatherData now1 s0).2).2.inFlight =
       [s0.nextId]) ∧
    (∀ s, Reachable s → s.inFlight.length ≤ 1) := by
  obtain ⟨h1, _, _⟩ := reachable_inv hreach
  constructor
  · have hinF : s0.inFlight = [] := h1 hp
    have hcall1 := getShared_start hv hp
    set s1 : SysState :=
      { cache := { s0.cache with fetchPromise := some s0.nextId },
        inFlight := s0.nextId :: s0.inFlight,
        nextId := s0.nextId + 1,
        fetchCount := s0.fetchCount + 1 } with hs1
    have hv2 : cacheValid s1.cache now2 = false := by
      have heq : cacheValid s1.cache now2 = cacheValid s0.cache now2 := by
        simp [hs1, cacheValid]
      rw [heq]
      exact cacheValid_mono_false _ hv hle
    have hfp1 : s1.cache.fetchPromise = some s0.nextId := rfl
    have hcall2 := getShared_join hv2 hfp1
    rw [hcall1]
    dsimp only
    rw [hcall2]
    simp [hs1, hinF]
  · intro s hs
    obtain ⟨g1, g2, _⟩ := reachable_inv hs
    cases hfp : s.cache.fetchPromise with
    | none => simp [g1 hfp]
    | some pid => simp [g2 pid hfp]

/-- Witness for C2 at the initial state: the first call at time 0 issues
round 0, the second call joins it, one fetch total. -/
theorem single_flight_shared_fetch_witness :
    ((getSharedWeatherData 0 initState).1 = CallResult.awaitPromise 0 ∧
     (getSharedWeatherData 0 (getSharedWeatherData 0 initState).2).1 =
       CallResult.awaitPromise 0 ∧
     (getSharedWeatherData 0 (getSharedWeatherData 0 initState).2).2.fetchCount = 1 ∧
     (getSharedWeatherData 0 (getSharedWeatherData 0 initState).2).2.inFlight =
       [0]) ∧
    (∀ s, Reachable s → s.inFlight.length ≤ 1) :=
  single_flight_shared_fetch initState 0 0 Reachable.init rfl rfl (le_refl 0)

/-- C3: a call made `t` ms after a successful fetch settled at `tFetch`
returns the cached result and issues no new fetch when `t` is below the 15
minute window, and starts a new fetch round when `t` is at or past it. -/
theorem cache_freshness (s : SysState) (pid : ℕ) (resp : Location → Weather)
    (tFetch t : ℕ) :
    (getSharedWeatherData (tFetch + t) (settleSuccess pid resp tFetch s)).1 =
      (if t < cacheDuration then CallResult.cached (fetchResults pid resp)
       else CallResult.awaitPromise s.nextId) ∧
    (getSharedWeatherData (tFetch + t) (settleSuccess pid resp tFetch s)).2.fetchCount =
      (if t < cacheDuration then s.fetchCount else s.fetchCount + 1) := by
  have hC : cacheDuration = 900000 := rfl
  by_cases ht : t < cacheDuration
  · have hv : cacheValid (settleSuccess pid resp tFetch s).cache (tFetch + t)
        = true := by
      simp only [cacheValid, settleSuccess, Option.isSome_some, Bool.true_and,
        decide_eq_true_eq, hC]
      rw [hC] at ht
      push_cast
      omega
    rw [getShared_cached rfl hv]
    simp [ht, settleSuccess]
  · have hv : cacheValid (settleSuccess pid resp tFetch s).cache (tFetch + t)
        = false := by
      simp only [cacheValid, settleSuccess, Option.isSome_some, Bool.true_and,
        decide_eq_false_iff_not, not_lt, hC]
      rw [hC, not_lt] at ht
      push_cast
      omega
    rw [getShared_start hv rfl]
    simp [ht, settleSuccess]

/-- C7: at every reachable state the cached `data` is `null` or the complete
per-location result list of a single fetch round, and a cached read returns a
list with an entry for every configured location, all tagged with the same
round. -/
theorem cache_atomic_replacement (s : SysState) (hreach : Reachable s) :
    (s.cache.data = none ∨
      ∃ pid resp, s.cache.data = some (fetchResults pid resp)) ∧
    (∀ now d, (getSharedWeatherData now s).1 = CallResult.cached d →
      ∃ pid resp, d = fetchResults pid resp ∧
        ∀ loc ∈ LOCATIONS, ∃ rec ∈ d, rec.name = loc.name ∧ rec.round = pid) := by
  obtain ⟨_, _, h3⟩ := reachable_inv hreach
  refine ⟨h3, ?_⟩
  intro now d hd
  by_cases hv : cacheValid s.cache now = true
  · have hsome : s.cache.data.isSome = true := by
      by_contra hns
      simp only [Bool.not_eq_true] at hns
      simp [cacheValid, hns] at hv
    obtain ⟨d', hd'⟩ := Option.isSome_iff_exists.mp hsome
    rw [getShared_cached hd' hv] at hd
    simp only [CallResult.cached.injEq] at hd
    subst hd
    rcases h3 with h | ⟨pid, resp, hpr⟩
    · rw [h] at hd'; cases hd'
    · rw [hpr] at hd'
      obtain rfl : fetchResults pid resp = d' := by
        injection hd'
      refine ⟨pid, resp, rfl, ?_⟩
      intro loc hloc
      exact ⟨⟨loc.name, some (resp loc), pid⟩,
        List.mem_map_of_mem _ hloc, rfl, rfl⟩
  · rw [Bool.not_eq_true] at hv
    cases hp : s.cache.fetchPromise with
    | some pid => rw [getShared_join hv hp] at hd; cases hd
    | none => rw [getShared_start hv hp] at hd; cases hd

/-- Witness for C7 at the initial state. -/
theorem cache_atomic_replacement_witness :
    (initState.cache.data = none ∨
      ∃ pid resp, initState.cache.data = some (fetchResults pid resp)) ∧
    (∀ now d, (getSharedWeatherData now initState).1 = CallResult.cached d →
      ∃ pid resp, d = fetchResults pid resp ∧
        ∀ loc ∈ LOCATIONS, ∃ rec ∈ d, rec.name = loc.name ∧ rec.round = pid) :=
  cache_atomic_replacement initState Reachable.init

/-- C10: when the fetch round `pid` rejects, the single shared settlement
value every waiting caller observes is that same rejection; `cache.data` and
`cache.timestamp` are untouched, `cache.fetchPromise` is reset to `null`, and
a subsequent call (while the cache is not valid) starts a fresh fetch
round. -/
theorem fetch_failure_preserves_cache (s : SysState) (pid : ℕ) (e : String)
    (settleT now : ℕ)
    (hv : cacheValid (settleFailure pid s).cache now = false) :
    (awaitShared (.fail e) settleT pid s).1 = Except.error e ∧
    (awaitShared (.fail e) settleT pid s).2.cache.data = s.cache.data ∧
    (awaitShared (.fail e) settleT pid s).2.cache.timestamp = s.cache.timestamp ∧
    (awaitShared (.fail e) settleT pid s).2.cache.fetchPromise = none ∧
    (getSharedWeatherData now (awaitShared (.fail e) settleT pid s).2).1 =
      CallResult.awaitPromise s.nextId ∧
    (getSharedWeatherData now (awaitShared (.fail e) settleT pid s).2).2.fetchCount =
      s.fetchCount + 1 := by
  have h2 : (awaitShared (.fail e) settleT pid s).2 = settleFailure pid s := rfl
  refine ⟨rfl, rfl, rfl, rfl, ?_, ?_⟩ <;>
  · rw [h2, getShared_start hv rfl]
    simp [settleFailure]

/-- Witness for C10 at the initial state with round 0 failing with a network
error at time 0. -/
theorem fetch_failure_preserves_cache_witness :
    (awaitShared (.fail "network error") 0 0 initState).1 =
      Except.error "network error" ∧
    (awaitShared (.fail "network error") 0 0 initState).2.cache.data = none ∧
    (awaitShared (.fail "network error") 0 0 initState).2.cache.timestamp = 0 ∧
    (awaitShared (.fail "network error") 0 0 initState).2.cache.fetchPromise =
      none ∧
    (getSharedWeatherData 0 (awaitShared (.fail "network error") 0 0 initState).2).1 =
      CallResult.awaitPromise 0 ∧
    (getSharedWeatherData 0 (awaitShared (.fail "network error") 0 0 initState).2).2.fetchCount =
      1 :=
  fetch_failure_preserves_cache initState 0 "network error" 0 0 rfl

/-! ## Derived queries

Each query first awaits `getSharedWeatherData()`.  The awaited outcome is
passed in as an `Except`: `.error e` is a rejected shared fetch, and since
none of the queries wraps that `await` in `try/catch`, an `.error` input
propagates to the query's own result (a rejected promise toward the caller).
Local-zone instants (`DateTime.now().setZone(...)`, parsed sunrise/sunset and
hourly timestamps) are minutes on a common local timeline. -/

/-- `getWeatherIcon(weatherCode, isDay)` (weatherService.js lines 105-118). -/
def getWeatherIcon (weatherCode : ℕ) (isDay : Bool) : String :=
  if weatherCode = 0 then (if isDay then "☀️" else "🌙")
  else if 1 ≤ weatherCode ∧ weatherCode ≤ 3 then "☁️"
  else if 45 ≤ weatherCode ∧ weatherCode ≤ 48 then "🌫️"
  else if 51 ≤ weatherCode ∧ weatherCode ≤ 57 then "💧"
  else if 61 ≤ weatherCode ∧ weatherCode ≤ 67 then "🌧️"
  else if 71 ≤ weatherCode ∧ weatherCode ≤ 77 then "❄️"
  else if 80 ≤ weatherCode ∧ weatherCode ≤ 82 then "🌦️"
  else if 85 ≤ weatherCode ∧ weatherCode ≤ 86 then "🌨️"
  else if weatherCode = 95 then "⛈️"
  else if 96 ≤ weatherCode ∧ weatherCode ≤ 99 then "⛈️"
  else "❓"

/-- `getNextSunEventForLocation` (revision with the next-event analysis,
lines 74-97): `--:--` sentinel time is `none`; otherwise the icon of the next
event and the minutes remaining until it. -/
def getNextSunEventForLocation (shared : Except String (List LocRecord))
    (locationName : String) (nowInLocation : ℤ) :
    Except String (String × Option ℤ) :=
  match shared with
  | .error e => .error e
  | .ok allWeatherData =>
    match allWeatherData.find? (fun loc => loc.name == locationName) with
    | none => .ok ("❓", none)
    | some locationData =>
      match locationData.weather with
      | none => .ok ("❓", none)
      | some weather =>
        let sunriseToday := weather.daily.sunrise.getD 0 0
        let sunsetToday := weather.daily.sunset.getD 0 0
        let sunriseTomorrow := weather.daily.sunrise.getD 1 0
        if nowInLocation < sunriseToday then
          .ok ("🌅️", some (sunriseToday - nowInLocation))
        else if nowInLocation < sunsetToday then
          .ok ("🌙", some (sunsetToday - nowInLocation))
        else
          .ok ("🌅", some (sunriseTomorrow - nowInLocation))

/-- The backward scan `for (let i = hourlyTimes.length - 1; i >= 0; i--)
if (hourlyTimes[i] <= nowInLocation) { currentIndex = i; break; }`
(lines 153-159); `none` is the `-1` no-match sentinel.  The argument counts
the indexes still to scan (initially the length). -/
def currentHourIndexAux (hourlyTimes : List ℤ) (nowInLocation : ℤ) :
    ℕ → Option ℕ
  | 0 => none
  | (i+1) =>
      if hourlyTimes.getD i 0 ≤ nowInLocation then some i
      else currentHourIndexAux hourlyTimes nowInLocation i

/-- The selected `currentIndex` of `getCurrentWeatherForLocation`. -/
def currentHourIndex (hourlyTimes : List ℤ) (nowInLocation : ℤ) : Option ℕ :=
  currentHourIndexAux hourlyTimes nowInLocation hourlyTimes.length

/-- The value `getCurrentWeatherForLocation` resolves with: the `'N/A'` /
`'❓'` sentinel object, or rounded temperature, signed apparent-temperature
difference, icon, and precipitation of the selected hourly sample. -/
inductive CurrentWeather where
  | na
  | sample (temperature : ℤ) (tempDiff : ℤ) (icon : String) (precipitation : ℚ)
deriving DecidableEq

/-- `getCurrentWeatherForLocation` (revision with the backward scan, lines
125-183).  `Math.round` is `round` (floor of `x + 1/2` in both). -/
def getCurrentWeatherForLocation (shared : Except String (List LocRecord))
    (locationName : String) (nowInLocation : ℤ) :
    Except String CurrentWeather :=
  match shared with
  | .error e => .error e
  | .ok allWeatherData =>
    match allWeatherData.find? (fun loc => loc.name == locationName) with
    | none => .ok .na
    | some locationData =>
      match locationData.weather with
      | none => .ok .na
      | some weather =>
        let sunriseToday := weather.daily.sunrise.getD 0 0
        let sunsetToday := weather.daily.sunset.getD 0 0
        let isDay : Bool := decide (sunriseToday < nowInLocation) &&
          decide (nowInLocation < sunsetToday)
        match currentHourIndex weather.hourly.time nowInLocation with
        | none => .ok .na
        | some i =>
          let temperature := weather.hourly.temperature_2m.getD i 0
          let weatherCode := weather.hourly.weathercode.getD i 0
          let precipitation := weather.hourly.precipitation.getD i 0
          let apparentTemperature := weather.hourly.apparent_temperature.getD i 0
          .ok (.sample (round temperature)
            (round apparentTemperature - round temperature)
            (getWeatherIcon weatherCode isDay) precipitation)

/-- `getTodayPrecipitationProbability` (lines 191-211): `'N/A'` sentinel is
`none`; otherwise today's `precipitation_probability_max[0]`. -/
def getTodayPrecipitationProbability (shared : Except String (List LocRecord))
    (locationName : String) : Except String (Option ℚ) :=
  match shared with
  | .error e => .error e
  | .ok allWeatherData =>
    match allWeatherData.find? (fun loc => loc.name == locationName) with
    | none => .ok none
    | some locationData =>
      match locationData.weather with
      | none => .ok none
      | some weather => .ok weather.daily.precipitation_probability_max.head?

lemma currentHourIndexAux_spec (times : List ℤ) (now : ℤ) (i : ℕ) :
    ∀ n, i < n →
    times.getD i 0 ≤ now →
    (∀ j, i < j → j < n → now < times.getD j 0) →
    currentHourIndexAux times now n = some i := by
  intro n
  induction n with
  | zero => omega
  | succ k ih =>
      intro hik hle hgt
      by_cases hki : k = i
      · subst hki
        rw [currentHourIndexAux, if_pos hle]
      · have hik' : i < k := by omega
        have hklt : now < times.getD k 0 := hgt k hik' (by omega)
        rw [currentHourIndexAux, if_neg (by omega)]
        exact ih hik' hle (fun j hj1 hj2 => hgt j hj1 (by omega))

/-- C5: with `now` strictly between two consecutive hourly sample timestamps
of a sorted hourly time array, the backward scan of
`getCurrentWeatherForLocation` selects the earlier sample (the most recent
index with timestamp ≤ now), and the query reports exactly that sample's
temperature, apparent-temperature difference, icon and precipitation. -/
theorem current_weather_selects_earlier_sample (times : List ℤ) (now : ℤ)
    (i : ℕ) (hsorted : times.Sorted (· ≤ ·)) (hi : i + 1 < times.length)
    (h1 : times.getD i 0 ≤ now) (h2 : now < times.getD (i + 1) 0) :
    currentHourIndex times now = some i ∧
    (∀ (name : String) (pid : ℕ) (w : Weather), w.hourly.time = times →
      getCurrentWeatherForLocation (.ok [⟨name, some w, pid⟩]) name now =
        .ok (.sample (round (w.hourly.temperature_2m.getD i 0))
          (round (w.hourly.apparent_temperature.getD i 0) -
            round (w.hourly.temperature_2m.getD i 0))
          (getWeatherIcon (w.hourly.weathercode.getD i 0)
            (decide (w.daily.sunrise.getD 0 0 < now) &&
              decide (now < w.daily.sunset.getD 0 0)))
          (w.hourly.precipitation.getD i 0))) := by
  have hidx : currentHourIndex times now = some i := by
    unfold currentHourIndex
    apply currentHourIndexAux_spec times now i times.length (by omega) h1
    intro j hij hjlen
    have hmono : times.getD (i + 1) 0 ≤ times.getD j 0 := by
      rcases Nat.lt_or_ge (i + 1) j with hlt | hge
      · have hrel := hsorted.rel_get_of_lt
          (a := ⟨i + 1, by omega⟩) (b := ⟨j, hjlen⟩) hlt
        rw [List.getD_eq_getElem _ _ (by omega : i + 1 < times.length),
            List.getD_eq_getElem _ _ hjlen]
        simpa [List.get_eq_getElem] using hrel
      · have : j = i + 1 := by omega
        rw [this]
    linarith
  refine ⟨hidx, ?_⟩
  intro name pid w hw
  simp [getCurrentWeatherForLocation, List.find?, hw, hidx]

/-- Witness for C5: `now = 30` lies strictly between the samples at 0 and 60;
the scan picks index 0 and the query reports that sample (20°C, feels-like
19°C, clear-sky night icon, no precipitation). -/
theorem current_weather_selects_earlier_sample_witness :
    currentHourIndex [0, 60] 30 = some 0 ∧
    getCurrentWeatherForLocation
        (.ok [⟨"Tambopata",
          some ⟨"America/Lima", ⟨[360], [1080], []⟩,
            ⟨[0, 60], [20, 21], [19, 20], [0, 61], [0, 3/2]⟩⟩, 0⟩])
        "Tambopata" 30 =
      .ok (.sample 20 (-1) "🌙" 0) := by
  have h := current_weather_selects_earlier_sample [0, 60] 30 0
    (by norm_num [List.sorted_cons]) (by norm_num) (by norm_num) (by norm_num)
  refine ⟨h.1, ?_⟩
  have h2 := h.2 "Tambopata" 0
    ⟨"America/Lima", ⟨[360], [1080], []⟩,
      ⟨[0, 60], [20, 21], [19, 20], [0, 61], [0, 3/2]⟩⟩ rfl
  rw [h2]
  norm_num [getWeatherIcon]

/-- C6 (counterexample): a network/transport failure — a rejected
`getSharedWeatherData()` promise — is not converted to the `'❓'`/`'N/A'`
sentinel by any of the three derived queries: none of them wraps the `await`
in `try/catch`, so the rejection propagates to the query's caller. -/
theorem network_failure_rejects_queries :
    getNextSunEventForLocation (.error "network error") "Dresden" 0 =
      .error "network error" ∧
    getNextSunEventForLocation (.error "network error") "Dresden" 0 ≠
      .ok ("❓", none) ∧
    getCurrentWeatherForLocation (.error "network error") "Dresden" 0 =
      .error "network error" ∧
    getCurrentWeatherForLocation (.error "network error") "Dresden" 0 ≠
      .ok .na ∧
    getTodayPrecipitationProbability (.error "network error") "Dresden" =
      .error "network error" ∧
    getTodayPrecipitationProbability (.error "network error") "Dresden" ≠
      .ok none := by
  refine ⟨rfl, ?_, rfl, ?_, rfl, ?_⟩ <;> intro h <;> cases h

/-- C6 (amended): a missing location or missing weather payload yields each
query's explicit sentinel, and a failed hourly index lookup yields the
current-conditions `'N/A'` sentinel — none of these throws; but a rejected
shared fetch propagates out of every query as a rejection. -/
theorem query_error_policy (locationName : String)
    (data : List LocRecord) (now : ℤ) (e : String) :
    (data.find? (fun loc => loc.name == locationName) = none →
      getNextSunEventForLocation (.ok data) locationName now = .ok ("❓", none) ∧
      getCurrentWeatherForLocation (.ok data) locationName now = .ok .na ∧
      getTodayPrecipitationProbability (.ok data) locationName = .ok none) ∧
    (∀ name pid, data.find? (fun loc => loc.name == locationName) =
        some ⟨name, none, pid⟩ →
      getNextSunEventForLocation (.ok data) locationName now = .ok ("❓", none) ∧
      getCurrentWeatherForLocation (.ok data) locationName now = .ok .na ∧
      getTodayPrecipitationProbability (.ok data) locationName = .ok none) ∧
    (∀ name pid w, data.find? (fun loc => loc.name == locationName) =
        some ⟨name, some w, pid⟩ →
      currentHourIndex w.hourly.time now = none →
      getCurrentWeatherForLocation (.ok data) locationName now = .ok .na) ∧
    (getNextSunEventForLocation (.error e) locationName now = .error e ∧
     getCurrentWeatherForLocation (.error e) locationName now = .error e ∧
     getTodayPrecipitationProbability (.error e) locationName = .error e) := by
  refine ⟨?_, ?_, ?_, rfl, rfl, rfl⟩
  · intro hfind
    exact ⟨by simp [getNextSunEventForLocation, hfind],
      by simp [getCurrentWeatherForLocation, hfind],
      by simp [getTodayPrecipitationProbability, hfind]⟩
  · intro name pid hfind
    exact ⟨by simp [getNextSunEventForLocation, hfind],
      by simp [getCurrentWeatherForLocation, hfind],
      by simp [getTodayPrecipitationProbability, hfind]⟩
  · intro name pid w hfind hidx
    simp [getCurrentWeatherForLocation, hfind, hidx]

/-- Witness for C6's amended theorem: an empty result list (no configured
location matches) yields the sentinels, and a rejected fetch propagates. -/
theorem query_error_policy_witness :
    (getNextSunEventForLocation (.ok []) "Dresden" 0 = .ok ("❓", none) ∧
     getCurrentWeatherForLocation (.ok []) "Dresden" 0 = .ok .na ∧
     getTodayPrecipitationProbability (.ok []) "Dresden" = .ok none) ∧
    getNextSunEventForLocation (.error "boom") "Dresden" 0 = .error "boom" :=
  ⟨(query_error_policy "Dresden" [] 0 "boom").1 rfl,
   (query_error_policy "Dresden" [] 0 "boom").2.2.2.1⟩

/-- A concrete two-day forecast for C8's scenario: today's sunrise at 06:00
(minute 360) and sunset at 18:00 (minute 1080), tomorrow's sunrise at 06:00
(minute 1800 on the same timeline). -/
def sampleWeather : Weather :=
  ⟨"Europe/Berlin", ⟨[360, 1800], [1080, 2520], [10]⟩, ⟨[], [], [], [], []⟩⟩

/-- C8: with today's sunrise at 06:00 and sunset at 18:00 local time,
`getNextSunEventForLocation` returns at 05:59 the sunrise event with 1 minute
remaining, between sunrise and sunset today's sunset event with the time
remaining to it, and at 18:01 tomorrow's sunrise event with the 719 minutes
remaining to it. -/
theorem next_sun_event_boundaries (locationName : String) (pid : ℕ)
    (w : Weather) (now : ℤ)
    (hr : w.daily.sunrise.getD 0 0 = 360)
    (hs : w.daily.sunset.getD 0 0 = 1080)
    (hr2 : w.daily.sunrise.getD 1 0 = 1800) :
    (now = 359 →
      getNextSunEventForLocation (.ok [⟨locationName, some w, pid⟩])
        locationName now = .ok ("🌅️", some 1)) ∧
    (360 ≤ now → now < 1080 →
      getNextSunEventForLocation (.ok [⟨locationName, some w, pid⟩])
        locationName now = .ok ("🌙", some (1080 - now))) ∧
    (now = 1081 →
      getNextSunEventForLocation (.ok [⟨locationName, some w, pid⟩])
        locationName now = .ok ("🌅", some 719)) := by
  rw [List.getD_eq_getElem?_getD] at hr hs hr2
  refine ⟨?_, ?_, ?_⟩
  · rintro rfl
    norm_num [getNextSunEventForLocation, List.find?, hr, hs, hr2]
  · intro hge hlt
    have hn : ¬ now < 360 := by omega
    simp [getNextSunEventForLocation, List.find?, hr, hs, hr2, hn, hlt]
  · rintro rfl
    norm_num [getNextSunEventForLocation, List.find?, hr, hs, hr2]

/-- Witness for C8 on `sampleWeather` at 05:59, noon, and 18:01. -/
theorem next_sun_event_boundaries_witness :
    getNextSunEventForLocation (.ok [⟨"Dresden", some sampleWeather, 0⟩])
      "Dresden" 359 = .ok ("🌅️", some 1) ∧
    getNextSunEventForLocation (.ok [⟨"Dresden", some sampleWeather, 0⟩])
      "Dresden" 720 = .ok ("🌙", some 360) ∧
    getNextSunEventForLocation (.ok [⟨"Dresden", some sampleWeather, 0⟩])
      "Dresden" 1081 = .ok ("🌅", some 719) := by
  refine ⟨(next_sun_event_boundaries "Dresden" 0 sampleWeather 359
      rfl rfl rfl).1 rfl, ?_,
    (next_sun_event_boundaries "Dresden" 0 sampleWeather 1081
      rfl rfl rfl).2.2 rfl⟩
  have h := (next_sun_event_boundaries "Dresden" 0 sampleWeather 720
    rfl rfl rfl).2.1 (by norm_num) (by norm_num)
  rw [h]
  norm_num

end Tambopata
